import Mathlib

/-!
Verification of the sign-up-form component and its Component Object Model
(COM) test facade.

The embedding follows the source:
* `validateForm` and `handleSubmit` follow `SignUpForm` in
  `src/unnamed/part_002` (lines 286-310): a chain of `if` statements that
  assign into a JavaScript object, so a later assignment to the same key
  overwrites an earlier one (last write wins).
* `SignUpFormCOM` follows `src/src/components/sign-up-form/sign-up-form.com.tsx`.
-/

/-- The three string inputs collected by the form (`SignUpData` in the source,
with the form's mutable field state read at submission time). -/
structure FormFields where
  email : String
  password : String
  confirmPassword : String
deriving Repr, DecidableEq

/-- The `errors` object built by `validateForm`: a field-keyed map where a key
is present only when that field currently fails a rule
(`Partial<SignUpData>` in the source). -/
structure ValidationErrors where
  email : Option String
  password : Option String
  confirmPassword : Option String
deriving Repr, DecidableEq

/-- `validateForm` from `src/unnamed/part_002` lines 286-296.  Each `if`
assigns into the `errors` object; assignments to the same key overwrite
(JavaScript object-property assignment), which the `let` chain reproduces. -/
def validateForm (f : FormFields) : ValidationErrors :=
  let errors : ValidationErrors := ⟨none, none, none⟩
  let errors := if f.email = "" then
    { errors with email := some "Email is required" } else errors
  let errors := if f.password.length < 8 then
    { errors with password := some "Password must be at least 8 characters" } else errors
  let errors := if f.password = "" then
    { errors with password := some "Password is required" } else errors
  let errors := if f.confirmPassword = "" then
    { errors with confirmPassword := some "You must confirm your password" } else errors
  let errors := if f.password ≠ f.confirmPassword then
    { errors with confirmPassword := some "Passwords do not match" } else errors
  errors

/-- `Object.keys(errors).length > 0` in `handleSubmit`: some field has an
error entry. -/
def hasErrors (e : ValidationErrors) : Bool :=
  e.email.isSome || e.password.isSome || e.confirmPassword.isSome

/-- The component state touched by `handleSubmit`: the three field values and
the three displayed message strings (the six `useState` cells). -/
structure FormState where
  fields : FormFields
  emailMsg : String
  passwordMsg : String
  confirmPasswordMsg : String
deriving Repr, DecidableEq

/-- `handleSubmit` from `src/unnamed/part_002` lines 298-310.  Returns the
state after the three `set*Msg` calls together with the argument passed to
`onSubmit`, or `none` when `hasErrors` made it return early (so the callback
runs exactly once per submit on the success path and never otherwise). -/
def handleSubmit (s : FormState) : FormState × Option FormFields :=
  let errors := validateForm s.fields
  let s' : FormState :=
    { s with
      emailMsg := errors.email.getD ""
      passwordMsg := errors.password.getD ""
      confirmPasswordMsg := errors.confirmPassword.getD "" }
  if hasErrors errors then (s', none)
  else (s', some ⟨s.fields.email, s.fields.password, s.fields.confirmPassword⟩)

/-- The rendered surface the facade queries (spec section 6): labeled input
controls and currently displayed text elements, each paired with an abstract
element handle. -/
structure RenderedDoc where
  labeledControls : List (String × Nat)
  textElements : List (String × Nat)

/-- Modelled from the spec: the testing-library `getBy*` queries used by the
facade (external collaborators, not repository code) return the matching
element and throw when no element, or more than one, matches the key
(spec sections 4.2, 7 and 9: lookup by a stable semantic key that fails when
the expected control or message is not found). -/
def getByQuery (entries : List (String × Nat)) (t : String) : Except String Nat :=
  match entries.filter (fun p => p.1 = t) with
  | [x] => Except.ok x.2
  | [] => Except.error ("Unable to find an element with the text: " ++ t)
  | _ => Except.error ("Found multiple elements with the text: " ++ t)

/-- `this.#utils.getByLabelText(t)` in the facade. -/
def getByLabelText (doc : RenderedDoc) (t : String) : Except String Nat :=
  getByQuery doc.labeledControls t

/-- `this.#utils.getByText(t)` in the facade. -/
def getByText (doc : RenderedDoc) (t : String) : Except String Nat :=
  getByQuery doc.textElements t

/-- `entries` hold exactly one element for key `t`: the condition under which
a `getBy*` query succeeds. -/
def uniqueMatch (entries : List (String × Nat)) (t : String) : Bool :=
  (entries.filter (fun p => p.1 = t)).length == 1

/-- Did the `Except` computation succeed (i.e. not throw)? -/
def exOk {α : Type} (r : Except String α) : Bool :=
  match r with
  | Except.ok _ => true
  | Except.error _ => false

/-- The `SignUpFormCOM` instance fields from `sign-up-form.com.tsx` lines
5-10: the cached render result and the four located controls. -/
structure SignUpFormCOM where
  utils : RenderedDoc
  emailInput : Nat
  passwordInput : Nat
  confirmPasswordInput : Nat
  submitButton : Nat

/-- The `SignUpFormCOM` constructor (`sign-up-form.com.tsx` lines 12-18):
locates the three labeled inputs and the submit button in the rendered
document, propagating any lookup failure as a thrown error. -/
def SignUpFormCOM.construct (doc : RenderedDoc) : Except String SignUpFormCOM := do
  let emailInput ← getByLabelText doc "Email:"
  let passwordInput ← getByLabelText doc "Password:"
  let confirmPasswordInput ← getByLabelText doc "Confirm Password:"
  let submitButton ← getByText doc "Submit"
  pure ⟨doc, emailInput, passwordInput, confirmPasswordInput, submitButton⟩

/-- `#getValidationMessage` (`sign-up-form.com.tsx` lines 30-32). -/
def SignUpFormCOM.getValidationMessage (com : SignUpFormCOM) (errorMessage : String) :
    Except String Nat :=
  getByText com.utils errorMessage

/-- `getEmailRequiredMessage` (`sign-up-form.com.tsx` lines 34-36). -/
def SignUpFormCOM.getEmailRequiredMessage (com : SignUpFormCOM) : Except String Nat :=
  com.getValidationMessage "Email is required"

/-- `getPasswordLengthMessage` (`sign-up-form.com.tsx` lines 38-40). -/
def SignUpFormCOM.getPasswordLengthMessage (com : SignUpFormCOM) : Except String Nat :=
  com.getValidationMessage "Password must be at least 8 characters"

/-- `getPasswordRequiredMessage` (`sign-up-form.com.tsx` lines 42-44). -/
def SignUpFormCOM.getPasswordRequiredMessage (com : SignUpFormCOM) : Except String Nat :=
  com.getValidationMessage "Password is required"

/-- `getConfirmPasswordRequiredMessage` (`sign-up-form.com.tsx` lines 46-48). -/
def SignUpFormCOM.getConfirmPasswordRequiredMessage (com : SignUpFormCOM) : Except String Nat :=
  com.getValidationMessage "You must confirm your password"

/-- `getPasswordsDoNotMatchMessage` (`sign-up-form.com.tsx` lines 50-52). -/
def SignUpFormCOM.getPasswordsDoNotMatchMessage (com : SignUpFormCOM) : Except String Nat :=
  com.getValidationMessage "Passwords do not match"

/-- The argument of `fillForm`: a partial value set, one optional string per
field (`Partial<SignUpData>` at the facade's boundary). -/
structure FillValues where
  email : Option String
  password : Option String
  confirmPassword : Option String
deriving Repr, DecidableEq

/-- JavaScript truthiness of an optional string, as tested by
`if (email) ...` in `fillForm`: `undefined` and the empty string are both
falsy. -/
def jsTruthy : Option String → Bool
  | none => false
  | some s => !(s == "")

/-- Modelled from the spec: `userEvent.type` (external collaborator, not
repository code) simulates sequential user keystrokes into a control,
appending to pre-existing content without clearing it (spec section 4.2). -/
def typeInto (current typed : String) : String :=
  current ++ typed

/-- `fillForm` (`sign-up-form.com.tsx` lines 20-24): for each truthy field of
the partial value set, type its string into the corresponding control. -/
def fillForm (fields : FormFields) (values : FillValues) : FormFields :=
  let fields := if jsTruthy values.email then
    { fields with email := typeInto fields.email (values.email.getD "") } else fields
  let fields := if jsTruthy values.password then
    { fields with password := typeInto fields.password (values.password.getD "") } else fields
  let fields := if jsTruthy values.confirmPassword then
    { fields with confirmPassword := typeInto fields.confirmPassword (values.confirmPassword.getD "") }
    else fields
  fields

theorem handleSubmit_fst (s : FormState) :
    (handleSubmit s).1 =
      { s with
        emailMsg := (validateForm s.fields).email.getD ""
        passwordMsg := (validateForm s.fields).password.getD ""
        confirmPasswordMsg := (validateForm s.fields).confirmPassword.getD "" } := by
  simp only [handleSubmit]
  split <;> rfl

/-- C1: a state with non-empty email, password of length at least 8, and
confirmPassword equal to password validates with no errors, and submitting it
invokes the callback exactly once with exactly the current field values. -/
theorem submit_valid_calls_onSubmit_once (s : FormState)
    (hemail : s.fields.email ≠ "")
    (hlen : 8 ≤ s.fields.password.length)
    (hconf : s.fields.confirmPassword = s.fields.password) :
    validateForm s.fields = ⟨none, none, none⟩ ∧
    (handleSubmit s).2 = some ⟨s.fields.email, s.fields.password, s.fields.confirmPassword⟩ := by
  have hp : s.fields.password ≠ "" := by
    intro h
    rw [h] at hlen
    revert hlen
    decide
  have hnl : ¬ (s.fields.password.length < 8) := by omega
  have hc : s.fields.confirmPassword ≠ "" := by
    intro h
    rw [hconf] at h
    exact hp h
  have hne : ¬ (s.fields.password ≠ s.fields.confirmPassword) := fun hk => hk hconf.symm
  have h0 : validateForm s.fields = ⟨none, none, none⟩ := by
    simp only [validateForm]
    rw [if_neg hemail, if_neg hnl, if_neg hp, if_neg hc, if_neg hne]
  refine ⟨h0, ?_⟩
  simp only [handleSubmit]
  rw [h0]
  simp [hasErrors]

theorem submit_valid_calls_onSubmit_once_witness :
    validateForm ⟨"fred@example.com", "password", "password"⟩ = ⟨none, none, none⟩ ∧
    (handleSubmit ⟨⟨"fred@example.com", "password", "password"⟩, "", "", ""⟩).2 =
      some ⟨"fred@example.com", "password", "password"⟩ :=
  submit_valid_calls_onSubmit_once ⟨⟨"fred@example.com", "password", "password"⟩, "", "", ""⟩
    (by decide) (by decide) rfl

/-- C2: submitting invokes the callback exactly when the recomputed
`ValidationErrors` is empty, and the payload is exactly the field values read
at that moment; when errors are present no payload is produced. -/
theorem submit_callback_iff_no_errors (s : FormState) :
    ((handleSubmit s).2.isSome = true ↔ hasErrors (validateForm s.fields) = false) ∧
    (handleSubmit s).2 =
      (if hasErrors (validateForm s.fields) then none
       else some ⟨s.fields.email, s.fields.password, s.fields.confirmPassword⟩) := by
  simp only [handleSubmit]
  by_cases h : hasErrors (validateForm s.fields) <;> simp [h]

/-- C5: whenever the email field is empty, the validator reports the
email-required message for the email key, whatever the other fields hold. -/
theorem email_required_always (f : FormFields) (he : f.email = "") :
    (validateForm f).email = some "Email is required" := by
  simp only [validateForm]
  rw [if_pos he]
  split <;> split <;> split <;> split <;> rfl

theorem email_required_always_witness :
    (validateForm ⟨"", "secretpw1", "other"⟩).email = some "Email is required" :=
  email_required_always ⟨"", "secretpw1", "other"⟩ rfl

/-- C6: whenever confirmPassword is non-empty and differs from password, the
validator reports the mismatch message for the confirmPassword key. -/
theorem mismatch_message (f : FormFields) (hc : f.confirmPassword ≠ "")
    (hne : f.password ≠ f.confirmPassword) :
    (validateForm f).confirmPassword = some "Passwords do not match" := by
  simp only [validateForm]
  rw [if_pos hne, if_neg hc]

theorem mismatch_message_witness :
    (validateForm ⟨"a@example.com", "password1", "password2"⟩).confirmPassword =
      some "Passwords do not match" :=
  mismatch_message ⟨"a@example.com", "password1", "password2"⟩ (by decide) (by decide)

/-- C3 counterexample: with empty confirmPassword but non-empty password, the
mismatch check runs last and overwrites the confirmation-required entry, so
the validator reports "Passwords do not match", not
"You must confirm your password". -/
theorem confirm_required_overwritten_counterexample :
    (validateForm ⟨"a@example.com", "password", ""⟩).confirmPassword =
      some "Passwords do not match" ∧
    (validateForm ⟨"a@example.com", "password", ""⟩).confirmPassword ≠
      some "You must confirm your password" := by
  decide

/-- C3 amended: for empty confirmPassword the confirmation-required message
survives exactly when password is also empty (so the two fields are equal);
when password is non-empty the later mismatch check overwrites it. -/
theorem confirm_required_only_when_password_empty (f : FormFields)
    (hc : f.confirmPassword = "") :
    (f.password = "" →
      (validateForm f).confirmPassword = some "You must confirm your password") ∧
    (f.password ≠ "" →
      (validateForm f).confirmPassword = some "Passwords do not match") := by
  constructor
  · intro hp
    have hne : ¬ (f.password ≠ f.confirmPassword) := by
      rw [hp, hc]
      simp
    simp only [validateForm]
    rw [if_neg hne, if_pos hc]
  · intro hp
    have hne : f.password ≠ f.confirmPassword := by
      rw [hc]
      exact hp
    simp only [validateForm]
    rw [if_pos hne]

theorem confirm_required_only_when_password_empty_witness :
    (validateForm ⟨"", "", ""⟩).confirmPassword = some "You must confirm your password" ∧
    (validateForm ⟨"a@example.com", "password", ""⟩).confirmPassword =
      some "Passwords do not match" :=
  ⟨(confirm_required_only_when_password_empty ⟨"", "", ""⟩ rfl).1 rfl,
   (confirm_required_only_when_password_empty ⟨"a@example.com", "password", ""⟩ rfl).2
     (by decide)⟩

/-- C4: an empty password makes the validator report exactly the
password-required message (the length message is written first and then
overwritten), while a non-empty password shorter than 8 gets exactly the
length message: the two password rules are mutually exclusive in the
resulting map. -/
theorem password_rules_precedence (f : FormFields) :
    (f.password = "" → (validateForm f).password = some "Password is required") ∧
    (f.password ≠ "" → f.password.length < 8 →
      (validateForm f).password = some "Password must be at least 8 characters") := by
  constructor
  · intro hp
    simp only [validateForm]
    rw [if_pos hp]
    split <;> split <;> split <;> rfl
  · intro hp hl
    simp only [validateForm]
    rw [if_neg hp, if_pos hl]
    split <;> split <;> split <;> rfl

theorem password_rules_precedence_witness :
    (validateForm ⟨"a@example.com", "", ""⟩).password = some "Password is required" ∧
    (validateForm ⟨"a@example.com", "short", "short"⟩).password =
      some "Password must be at least 8 characters" :=
  ⟨(password_rules_precedence ⟨"a@example.com", "", ""⟩).1 rfl,
   (password_rules_precedence ⟨"a@example.com", "short", "short"⟩).2 (by decide) (by decide)⟩

/-- C7: in an Invalid state (validation reports at least one error),
submitting twice with unchanged fields invokes the callback zero times on
both attempts and the second submit produces exactly the first submit's
result, messages included: each attempt recomputes all three messages fresh,
so nothing accumulates. -/
theorem invalid_submit_idempotent (s : FormState)
    (h : hasErrors (validateForm s.fields) = true) :
    (handleSubmit s).2 = none ∧
    (handleSubmit (handleSubmit s).1).2 = none ∧
    handleSubmit (handleSubmit s).1 = handleSubmit s := by
  have hf : (handleSubmit s).1.fields = s.fields := by
    rw [handleSubmit_fst]
  refine ⟨?_, ?_, ?_⟩
  · simp [handleSubmit, h]
  · rw [handleSubmit_fst s]
    simp [handleSubmit, h]
  · rw [handleSubmit_fst s]
    simp [handleSubmit, h]

theorem invalid_submit_idempotent_witness :
    (handleSubmit ⟨⟨"", "", ""⟩, "", "", ""⟩).2 = none ∧
    (handleSubmit (handleSubmit ⟨⟨"", "", ""⟩, "", "", ""⟩).1).2 = none ∧
    handleSubmit (handleSubmit ⟨⟨"", "", ""⟩, "", "", ""⟩).1 =
      handleSubmit ⟨⟨"", "", ""⟩, "", "", ""⟩ :=
  invalid_submit_idempotent ⟨⟨"", "", ""⟩, "", "", ""⟩ (by decide)

/-- C10: submitting never modifies the three field values (only the three
message strings are rewritten), and since the form is not reset, an
immediate second submit produces exactly the same result, including invoking
the callback again with the same values after a successful submission. -/
theorem submit_preserves_fields (s : FormState) :
    (handleSubmit s).1.fields = s.fields ∧
    handleSubmit (handleSubmit s).1 = handleSubmit s := by
  have hf : (handleSubmit s).1.fields = s.fields := by
    rw [handleSubmit_fst]
  refine ⟨hf, ?_⟩
  rw [handleSubmit_fst s]
  by_cases h : hasErrors (validateForm s.fields) <;> simp [handleSubmit, h]

theorem getByQuery_ok_iff (entries : List (String × Nat)) (t : String) :
    exOk (getByQuery entries t) = uniqueMatch entries t := by
  rcases hf : entries.filter (fun p => p.1 = t) with _ | ⟨x, _ | ⟨y, l⟩⟩ <;>
    simp [getByQuery, uniqueMatch, hf, exOk]

/-- C8: constructing the facade succeeds exactly when each of the three
labeled inputs and the "Submit" control has a unique match in the rendered
document (otherwise the failed lookup throws and construction aborts), and
`getValidationMessage` returns an element exactly when the requested message
text has a unique match (otherwise it throws); each convenience accessor is
`getValidationMessage` at its rule's literal message. -/
theorem facade_lookup_contract (doc : RenderedDoc) (msg : String) (com : SignUpFormCOM) :
    (exOk (SignUpFormCOM.construct doc) = true ↔
      (uniqueMatch doc.labeledControls "Email:" = true ∧
       uniqueMatch doc.labeledControls "Password:" = true ∧
       uniqueMatch doc.labeledControls "Confirm Password:" = true ∧
       uniqueMatch doc.textElements "Submit" = true)) ∧
    (exOk (com.getValidationMessage msg) = true ↔
      uniqueMatch com.utils.textElements msg = true) ∧
    com.getEmailRequiredMessage = com.getValidationMessage "Email is required" ∧
    com.getPasswordLengthMessage =
      com.getValidationMessage "Password must be at least 8 characters" ∧
    com.getPasswordRequiredMessage = com.getValidationMessage "Password is required" ∧
    com.getConfirmPasswordRequiredMessage =
      com.getValidationMessage "You must confirm your password" ∧
    com.getPasswordsDoNotMatchMessage = com.getValidationMessage "Passwords do not match" := by
  refine ⟨?_, ?_, rfl, rfl, rfl, rfl, rfl⟩
  · have e1 := getByQuery_ok_iff doc.labeledControls "Email:"
    have e2 := getByQuery_ok_iff doc.labeledControls "Password:"
    have e3 := getByQuery_ok_iff doc.labeledControls "Confirm Password:"
    have e4 := getByQuery_ok_iff doc.textElements "Submit"
    simp only [SignUpFormCOM.construct, getByLabelText, getByText]
    rcases h1 : getByQuery doc.labeledControls "Email:" with m1 | v1 <;>
      rcases h2 : getByQuery doc.labeledControls "Password:" with m2 | v2 <;>
        rcases h3 : getByQuery doc.labeledControls "Confirm Password:" with m3 | v3 <;>
          rcases h4 : getByQuery doc.textElements "Submit" with m4 | v4 <;>
            simp_all [exOk] <;> rfl
  · simp only [SignUpFormCOM.getValidationMessage, getByText, getByQuery_ok_iff]

/-- C9: in `fillForm` a field given as the empty string is falsy, so it is
handled exactly like an absent field: no keystrokes are typed and its control
keeps its value, making the empty-string call observationally equal to the
absent-field call; a present non-empty field is typed, which appends to the
control's pre-existing content. -/
theorem fillForm_empty_is_absent (fields : FormFields) (v : FillValues) :
    (v.email = some "" → fillForm fields v = fillForm fields { v with email := none }) ∧
    (v.password = some "" → fillForm fields v = fillForm fields { v with password := none }) ∧
    (v.confirmPassword = some "" →
      fillForm fields v = fillForm fields { v with confirmPassword := none }) ∧
    fillForm fields ⟨some "", none, none⟩ = fillForm fields ⟨none, none, none⟩ ∧
    fillForm fields ⟨none, none, none⟩ = fields ∧
    (∀ s : String, s ≠ "" →
      fillForm fields ⟨some s, none, none⟩ = { fields with email := fields.email ++ s }) := by
  refine ⟨?_, ?_, ?_, ?_, ?_, ?_⟩
  · intro h
    simp [fillForm, jsTruthy, h]
  · intro h
    simp [fillForm, jsTruthy, h]
  · intro h
    simp [fillForm, jsTruthy, h]
  · simp [fillForm, jsTruthy]
  · simp [fillForm, jsTruthy]
  · intro s hs
    simp [fillForm, jsTruthy, typeInto, hs]

theorem fillForm_empty_is_absent_witness :
    fillForm ⟨"a", "b", "c"⟩ ⟨some "", none, none⟩ =
      fillForm ⟨"a", "b", "c"⟩ ⟨none, none, none⟩ ∧
    fillForm ⟨"a", "b", "c"⟩ ⟨some "x", none, none⟩ =
      { email := "a" ++ "x", password := "b", confirmPassword := "c" } :=
  ⟨(fillForm_empty_is_absent ⟨"a", "b", "c"⟩ ⟨some "", none, none⟩).1 rfl,
   (fillForm_empty_is_absent ⟨"a", "b", "c"⟩ ⟨none, none, none⟩).2.2.2.2.2 "x" (by decide)⟩
